import Mathlib

/-!
# Verification of the Seefood Socket.IO relay server (`src/server.js`)

A shallow embedding of the relay server: a connection registry with a single
broadcast room, a fan-out channel, a heartbeat echo, and ten HTTP ingestion
endpoints, together with proofs about the spec's claims.

Modelling conventions:
* JavaScript runtime values are modelled by `JsVal` (undefined, null,
  booleans, integers standing in for JS numbers, strings, objects, arrays).
  Request bodies parsed by `express.json()` are association lists
  `List (String × JsVal)`.
* Socket identifiers are modelled as naturals allocated by a monotone
  counter, reflecting that each connection's `socket.id` is fresh.
* The framework dispatch semantics of the connection layer is part of the
  model: a `disconnect` event is delivered (and the registered handler run)
  only for a socket currently in the registry, and the layer itself removes
  the socket from its rooms; the repository's handler body contributes the
  counter decrement.  Likewise `socket.join`/`io.to(room).emit` use the
  room-membership semantics of the connection layer.
* Outbound messages are recorded as `Delivery` values: the target socket
  ids, the event name, and the JSON payload.
-/

namespace SeefoodRelay

/-- JavaScript runtime values, as far as the server inspects them.  JS
numbers are modelled as integers (the server never does arithmetic on
payload fields, it only tests truthiness and forwards them). -/
inductive JsVal where
  | undefined : JsVal
  | nullv : JsVal
  | boolean : Bool → JsVal
  | number : Int → JsVal
  | string : String → JsVal
  | object : List (String × JsVal) → JsVal
  | array : List JsVal → JsVal

/-- JavaScript truthiness: `undefined`, `null`, `false`, `0` and `""` are
falsy; every other value (objects and arrays included) is truthy. -/
def truthy : JsVal → Bool
  | .undefined => false
  | .nullv => false
  | .boolean b => b
  | .number n => n != 0
  | .string s => !s.isEmpty
  | .object _ => true
  | .array _ => true

/-- A parsed JSON request body: the object produced by `express.json()`. -/
abbrev Body := List (String × JsVal)

/-- Property read `body.f` on a parsed object: the bound value, or
`undefined` when the key is absent (JS destructuring semantics). -/
def getField (body : Body) (f : String) : JsVal :=
  (body.lookup f).getD .undefined

/-- Whether the body carries the key `f` at all (regardless of its value). -/
def hasField (body : Body) (f : String) : Bool :=
  (body.lookup f).isSome

/-- `a || b` on JS values: `a` when truthy, otherwise `b`. -/
def jsOr (a b : JsVal) : JsVal :=
  if truthy a then a else b

/-- Property access `v.f` on an arbitrary JS value: throws a `TypeError`
(modelled as `Except.error`) when `v` is `undefined` or `null`; yields
`undefined` on other non-objects; looks the key up on objects. -/
def jsGetProp : JsVal → String → Except Unit JsVal
  | .undefined, _ => .error ()
  | .nullv, _ => .error ()
  | .object fs, f => .ok ((fs.lookup f).getD .undefined)
  | _, _ => .ok .undefined

/-- A live connection in the registry: its socket id and the rooms it has
joined. -/
structure Conn where
  id : Nat
  rooms : List String

/-- The server's mutable state: the `connectedClients` counter (a JS
number, hence `Int`), the registry of live sockets kept by the connection
layer, and the allocator for fresh socket ids. -/
structure ServerState where
  connectedClients : Int
  sockets : List Conn
  nextId : Nat

/-- State at process start: no clients. -/
def initialState : ServerState :=
  { connectedClients := 0, sockets := [], nextId := 0 }

/-- An outbound message: which sockets it goes to, the event name, and the
JSON payload. -/
structure Delivery where
  targets : List Nat
  event : String
  payload : List (String × JsVal)

/-- Socket ids of the current members of `room`. -/
def roomMembers (s : ServerState) (room : String) : List Nat :=
  (s.sockets.filter (fun c => c.rooms.contains room)).map (fun c => c.id)

/-- The `io.on('connection')` handler (`server.js` lines 50–62): admits a
fresh socket, increments `connectedClients`, joins it to the
`order_updates` room, and emits `connection_established` with the assigned
id to that socket alone. -/
def onConnect (s : ServerState) : ServerState × List Delivery :=
  let sid := s.nextId
  ({ connectedClients := s.connectedClients + 1,
     sockets := { id := sid, rooms := ["order_updates"] } :: s.sockets,
     nextId := s.nextId + 1 },
   [{ targets := [sid], event := "connection_established",
      payload := [("message", .string "Connected to order updates"),
                  ("clientId", .number sid)] }])

/-- The `disconnect` event (`server.js` lines 73–76) together with the
connection layer's dispatch: the layer fires the handler and removes the
socket from the registry only when the socket is still registered; the
handler body decrements `connectedClients`.  A disconnect for an id no
longer in the registry reaches no handler and changes nothing. -/
def onDisconnect (s : ServerState) (sid : Nat) : ServerState :=
  if s.sockets.any (fun c => c.id == sid) then
    { s with connectedClients := s.connectedClients - 1,
             sockets := s.sockets.eraseP (fun c => c.id == sid) }
  else s

/-- The `ping` handler (`server.js` lines 65–70): reads `data.timestamp`
(throwing if `data` itself is `undefined` or `null`, in which case no
`pong` is sent), and answers the originating socket with
`pong { timestamp: data.timestamp || Date.now() }`. -/
def onPing (sid : Nat) (data : JsVal) (now : Int) : Except Unit Delivery :=
  match jsGetProp data "timestamp" with
  | .error e => .error e
  | .ok t =>
    .ok { targets := [sid], event := "pong",
          payload := [("timestamp", jsOr t (.number now))] }

/-- One lifecycle event at the connection layer. -/
inductive SockEvent where
  | connect : SockEvent
  | disconnect : Nat → SockEvent

/-- State transition for one lifecycle event. -/
def applyEvent (s : ServerState) : SockEvent → ServerState
  | .connect => (onConnect s).1
  | .disconnect sid => onDisconnect s sid

/-- Run a sequence of lifecycle events. -/
def runEvents (s : ServerState) : List SockEvent → ServerState
  | [] => s
  | e :: rest => runEvents (applyEvent s e) rest

/-- `io.to('order_updates').emit(ev, payload)`: one delivery addressed to
every current member of the room. -/
def broadcastEmit (s : ServerState) (ev : String)
    (payload : List (String × JsVal)) : Delivery :=
  { targets := roomMembers s "order_updates", event := ev, payload := payload }

/-- The connection layer's per-socket send loop for a dispatched delivery:
each target still registered at send time receives the event; a target that
disconnected in between is skipped.  The send never raises to the caller. -/
def deliverTo (s : ServerState) (targets : List Nat) : Except Unit (List Nat) :=
  .ok (targets.filter (fun i => s.sockets.any (fun c => c.id == i)))

/-- The ten event kinds of the ingestion API. -/
inductive EventKind where
  | order_created
  | order_updated
  | order_deleted
  | order_status_changed
  | order_image_uploaded
  | order_image_deleted
  | order_assigned
  | comment_created
  | comment_updated
  | comment_deleted
deriving DecidableEq

/-- The event-name string each endpoint emits (`type` discriminator). -/
def kindName : EventKind → String
  | .order_created => "order_created"
  | .order_updated => "order_updated"
  | .order_deleted => "order_deleted"
  | .order_status_changed => "order_status_changed"
  | .order_image_uploaded => "order_image_uploaded"
  | .order_image_deleted => "order_image_deleted"
  | .order_assigned => "order_assigned"
  | .comment_created => "comment_created"
  | .comment_updated => "comment_updated"
  | .comment_deleted => "comment_deleted"

/-- The body fields each handler destructures and validates; also the
fields it copies into the emitted event (`server.js` lines 90–349). -/
def requiredFields : EventKind → List String
  | .order_created => ["order"]
  | .order_updated => ["order"]
  | .order_deleted => ["order_id"]
  | .order_status_changed => ["order_id", "old_status", "new_status", "order"]
  | .order_image_uploaded => ["order_id", "image", "order"]
  | .order_image_deleted => ["order_id", "image_id", "order"]
  | .order_assigned => ["order_id", "assigned_users", "order"]
  | .comment_created => ["order_id", "comment"]
  | .comment_updated => ["order_id", "comment"]
  | .comment_deleted => ["order_id", "comment_id"]

/-- The 400-response `error` string of each handler. -/
def errorMessage : EventKind → String
  | .order_created => "Order data is required"
  | .order_updated => "Order data is required"
  | .order_deleted => "Order ID is required"
  | _ => "Missing required fields"

/-- The 200-response `message` string of each handler. -/
def successMessage : EventKind → String
  | .order_created => "Order created event broadcasted"
  | .order_updated => "Order updated event broadcasted"
  | .order_deleted => "Order deleted event broadcasted"
  | .order_status_changed => "Order status changed event broadcasted"
  | .order_image_uploaded => "Order image uploaded event broadcasted"
  | .order_image_deleted => "Order image deleted event broadcasted"
  | .order_assigned => "Order assigned event broadcasted"
  | .comment_created => "Comment created event broadcasted"
  | .comment_updated => "Comment updated event broadcasted"
  | .comment_deleted => "Comment deleted event broadcasted"

/-- An HTTP response: status code and JSON body. -/
structure HttpResponse where
  status : Nat
  body : List (String × JsVal)

/-- The event object a handler emits on success: the `type` tag followed by
the endpoint's fields with the values received in the body. -/
def eventPayload (k : EventKind) (body : Body) : List (String × JsVal) :=
  ("type", .string (kindName k)) ::
    (requiredFields k).map (fun f => (f, getField body f))

/-- One `POST /broadcast/...` handler (`server.js` lines 90–349).  All ten
handlers share this shape: destructure the required fields from the body;
if any of them is falsy (`if (!a || !b ...)`) answer 400 with an `error`
string and emit nothing; otherwise emit the event to the `order_updates`
room and answer 200 with `{success, message, clients}`.  The handler never
writes the registry or the counter, so the state is returned unchanged. -/
def handleBroadcast (k : EventKind) (s : ServerState) (body : Body) :
    HttpResponse × List Delivery × ServerState :=
  if (requiredFields k).any (fun f => !truthy (getField body f)) then
    ({ status := 400, body := [("error", .string (errorMessage k))] }, [], s)
  else
    ({ status := 200,
       body := [("success", .boolean true),
                ("message", .string (successMessage k)),
                ("clients", .number s.connectedClients)] },
     [broadcastEmit s (kindName k) (eventPayload k body)], s)

/-- The `GET /health` handler (`server.js` lines 352–358).  `uptime` is the
JS number `process.uptime()` returns, passed in opaquely. -/
def healthHandler (s : ServerState) (uptime : JsVal) : HttpResponse :=
  { status := 200,
    body := [("status", .string "ok"),
             ("connectedClients", .number s.connectedClients),
             ("uptime", uptime)] }

/-- The `GET /` handler (`server.js` lines 361–367). -/
def rootHandler (s : ServerState) : HttpResponse :=
  { status := 200,
    body := [("message", .string "Socket.IO Server for Seefood Orders"),
             ("version", .string "1.0.0"),
             ("connectedClients", .number s.connectedClients)] }

/-! ## Registry invariant -/

/-- The registry invariant maintained by the connect/disconnect handlers:
the counter mirrors the registry size, every registered id is below the
allocator, and registered ids are pairwise distinct. -/
def Inv (s : ServerState) : Prop :=
  s.connectedClients = (s.sockets.length : Int) ∧
  (∀ c ∈ s.sockets, c.id < s.nextId) ∧
  (s.sockets.map (fun c => c.id)).Nodup

/-- A state the running server can actually be in: reached from the start
state by some sequence of connects and disconnects. -/
def Reachable (s : ServerState) : Prop :=
  ∃ evs, runEvents initialState evs = s

theorem Inv_initial : Inv initialState := by
  refine ⟨rfl, ?_, ?_⟩ <;> simp [initialState]

theorem Inv_connect {s : ServerState} (h : Inv s) : Inv (onConnect s).1 := by
  obtain ⟨hcount, hbound, hnodup⟩ := h
  refine ⟨?_, ?_, ?_⟩
  · simp [onConnect, hcount]
  · intro c hc
    simp only [onConnect, List.mem_cons] at hc
    rcases hc with rfl | hc
    · exact Nat.lt_succ_self _
    · exact Nat.lt_succ_of_lt (hbound c hc)
  · simp only [onConnect, List.map_cons]
    refine List.nodup_cons.mpr ⟨?_, hnodup⟩
    intro hmem
    obtain ⟨c, hc, hid⟩ := List.mem_map.mp hmem
    exact absurd (hid ▸ hbound c hc) (Nat.lt_irrefl _)

theorem Inv_disconnect {s : ServerState} (sid : Nat) (h : Inv s) :
    Inv (onDisconnect s sid) := by
  obtain ⟨hcount, hbound, hnodup⟩ := h
  unfold onDisconnect
  split
  case isTrue hany =>
    obtain ⟨c, hc, hcp⟩ := List.any_eq_true.mp hany
    have hlen : (s.sockets.eraseP (fun c => c.id == sid)).length
        = s.sockets.length - 1 :=
      List.length_eraseP_of_mem hc hcp
    have hpos : 1 ≤ s.sockets.length := List.length_pos.mpr (by
      intro hnil; simp [hnil] at hc)
    have hsub : List.Sublist (s.sockets.eraseP (fun c => c.id == sid)) s.sockets :=
      List.eraseP_sublist s.sockets
    refine ⟨?_, ?_, ?_⟩
    · simp only [hlen, hcount]
      omega
    · intro d hd
      exact hbound d (hsub.subset hd)
    · exact (hsub.map (fun c => c.id)).nodup hnodup
  case isFalse =>
    exact ⟨hcount, hbound, hnodup⟩

theorem Inv_applyEvent {s : ServerState} (e : SockEvent) (h : Inv s) :
    Inv (applyEvent s e) := by
  cases e with
  | connect => exact Inv_connect h
  | disconnect sid => exact Inv_disconnect sid h

theorem Inv_runEvents (evs : List SockEvent) :
    ∀ s : ServerState, Inv s → Inv (runEvents s evs) := by
  induction evs with
  | nil => exact fun s h => h
  | cons e rest ih => exact fun s h => ih _ (Inv_applyEvent e h)

theorem Inv_of_reachable {s : ServerState} (h : Reachable s) : Inv s := by
  obtain ⟨evs, rfl⟩ := h
  exact Inv_runEvents evs initialState Inv_initial

/-! ## Claim theorems -/

/-- C3: for every sequence of connect and disconnect operations, the
`connectedClients` counter equals the number of Connections currently
admitted and not yet disconnected (the registry size), and it is never
negative. -/
theorem claim_connection_count_invariant (evs : List SockEvent) :
    (runEvents initialState evs).connectedClients
      = ((runEvents initialState evs).sockets.length : Int) ∧
    0 ≤ (runEvents initialState evs).connectedClients := by
  have h := Inv_runEvents evs initialState Inv_initial
  refine ⟨h.1, ?_⟩
  rw [h.1]
  exact_mod_cast Nat.zero_le _

/-- C4: a disconnect for a handle that is no longer in the registry is a
no-op: the state (counter and group membership included) is unchanged and
no error is surfaced. -/
theorem claim_disconnect_idempotent (s : ServerState) (sid : Nat)
    (h : s.sockets.any (fun c => c.id == sid) = false) :
    onDisconnect s sid = s := by
  simp [onDisconnect, h]

theorem claim_disconnect_idempotent_witness :
    (initialState.sockets.any (fun c => c.id == 7) = false) ∧
    onDisconnect initialState 7 = initialState :=
  ⟨rfl, claim_disconnect_idempotent initialState 7 rfl⟩

/-- C8: `GET /health` always answers 200 with
`{status: "ok", connectedClients: <count>, uptime: <uptime>}` where the
count is the current `connectedClients`; after exactly 3 connects and 1
disconnect the body reports `connectedClients: 2`. -/
theorem claim_health_endpoint (s : ServerState) (uptime : JsVal) :
    (healthHandler s uptime).status = 200 ∧
    (healthHandler s uptime).body
      = [("status", .string "ok"),
         ("connectedClients", .number s.connectedClients),
         ("uptime", uptime)] ∧
    (healthHandler
        (runEvents initialState [.connect, .connect, .connect, .disconnect 0])
        uptime).body
      = [("status", .string "ok"),
         ("connectedClients", .number 2),
         ("uptime", uptime)] := by
  refine ⟨rfl, rfl, ?_⟩
  rfl

/-- C9: the `ping` handler is total only when a payload value is supplied:
when the ping carries no payload at all (the handler receives `undefined`),
reading `data.timestamp` throws and no `pong` is sent. -/
theorem claim_ping_requires_payload (sid : Nat) (now : Int) :
    onPing sid .undefined now = .error () := rfl

/-- C10: every ingestion request, whether it answers 200 or 400, returns
the server state unchanged: the counter and the room membership after the
request are exactly what they were before it. -/
theorem claim_ingestion_preserves_registry (k : EventKind) (s : ServerState)
    (body : Body) :
    (handleBroadcast k s body).2.2 = s ∧
    (handleBroadcast k s body).2.2.connectedClients = s.connectedClients ∧
    roomMembers (handleBroadcast k s body).2.2 "order_updates"
      = roomMembers s "order_updates" := by
  have h : (handleBroadcast k s body).2.2 = s := by
    unfold handleBroadcast
    split <;> rfl
  exact ⟨h, by rw [h], by rw [h]⟩

/-- C5 counterexample: a ping carrying the client-supplied timestamp `0`
does not get `0` echoed back: `data.timestamp || Date.now()` treats the
falsy `0` as absent, so the pong carries the server time (999 here)
instead. -/
theorem claim_ping_echo_cex :
    onPing 3 (.object [("timestamp", .number 0)]) 999
      = .ok { targets := [3], event := "pong",
              payload := [("timestamp", .number 999)] } ∧
    (999 : Int) ≠ 0 := ⟨rfl, by decide⟩

/-- C5 (amended): a ping whose payload carries a truthy `timestamp` value
is answered, to the originating socket only, with `pong` echoing that
timestamp; a ping whose payload omits `timestamp` (or carries a falsy one,
such as `0`) is answered with `pong` carrying the server's current time. -/
theorem claim_ping_echo (sid : Nat) (fs : List (String × JsVal)) (now : Int) :
    (truthy ((fs.lookup "timestamp").getD .undefined) = true →
      onPing sid (.object fs) now
        = .ok { targets := [sid], event := "pong",
                payload := [("timestamp", (fs.lookup "timestamp").getD .undefined)] }) ∧
    (truthy ((fs.lookup "timestamp").getD .undefined) = false →
      onPing sid (.object fs) now
        = .ok { targets := [sid], event := "pong",
                payload := [("timestamp", .number now)] }) := by
  constructor <;> intro h <;> simp [onPing, jsGetProp, jsOr, h]

theorem claim_ping_echo_witness :
    (truthy (([("timestamp", JsVal.number 5)].lookup "timestamp").getD .undefined)
        = true ∧
      onPing 1 (.object [("timestamp", .number 5)]) 42
        = .ok { targets := [1], event := "pong",
                payload := [("timestamp",
                  (([("timestamp", JsVal.number 5)] :
                      List (String × JsVal)).lookup "timestamp").getD .undefined)] }) ∧
    (truthy ((([] : List (String × JsVal)).lookup "timestamp").getD .undefined)
        = false ∧
      onPing 1 (.object []) 42
        = .ok { targets := [1], event := "pong",
                payload := [("timestamp", .number 42)] }) :=
  ⟨⟨rfl, (claim_ping_echo 1 [("timestamp", .number 5)] 42).1 rfl⟩,
   ⟨rfl, (claim_ping_echo 1 [] 42).2 rfl⟩⟩

/-- C6: connecting a client in any reachable server state prepends a
Connection whose identifier is fresh (distinct from every registered id)
and whose only group is `order_updates`, increments the counter, and emits
exactly one `connection_established` message, addressed to the new socket
alone and carrying its assigned id. -/
theorem claim_connect_behavior (s : ServerState) (h : Reachable s) :
    (onConnect s).1.sockets
      = { id := s.nextId, rooms := ["order_updates"] } :: s.sockets ∧
    (∀ c ∈ s.sockets, c.id ≠ s.nextId) ∧
    (onConnect s).1.connectedClients = s.connectedClients + 1 ∧
    (onConnect s).2
      = [{ targets := [s.nextId], event := "connection_established",
           payload := [("message", .string "Connected to order updates"),
                       ("clientId", .number s.nextId)] }] := by
  obtain ⟨hcount, hbound, hnodup⟩ := Inv_of_reachable h
  refine ⟨rfl, ?_, rfl, rfl⟩
  intro c hc
  exact Nat.ne_of_lt (hbound c hc)

theorem claim_connect_behavior_witness :
    Reachable initialState ∧
    ((onConnect initialState).1.sockets
        = { id := initialState.nextId, rooms := ["order_updates"] }
            :: initialState.sockets ∧
      (∀ c ∈ initialState.sockets, c.id ≠ initialState.nextId) ∧
      (onConnect initialState).1.connectedClients
        = initialState.connectedClients + 1 ∧
      (onConnect initialState).2
        = [{ targets := [initialState.nextId], event := "connection_established",
             payload := [("message", .string "Connected to order updates"),
                         ("clientId", .number initialState.nextId)] }]) :=
  ⟨⟨[], rfl⟩, claim_connect_behavior initialState ⟨[], rfl⟩⟩

/-- C7: a broadcast is addressed to exactly the sockets that are members
of `order_updates` at call time (and to none outside it), with the event
name and payload passed through; the per-socket send loop never raises to
the caller, and a target that left the registry before its individual send
is silently skipped while every still-registered target is delivered. -/
theorem claim_broadcast_to_room (s t : ServerState) (ev : String)
    (payload : List (String × JsVal)) (targets : List Nat) :
    (∀ i, i ∈ (broadcastEmit s ev payload).targets
        ↔ ∃ c, c ∈ s.sockets ∧ c.rooms.contains "order_updates" = true
            ∧ c.id = i) ∧
    (broadcastEmit s ev payload).event = ev ∧
    (broadcastEmit s ev payload).payload = payload ∧
    (∃ ds, deliverTo t targets = .ok ds ∧
        ∀ i, i ∈ ds ↔ i ∈ targets ∧ ∃ c, c ∈ t.sockets ∧ c.id = i) := by
  refine ⟨?_, rfl, rfl, ⟨_, rfl, ?_⟩⟩
  · intro i
    simp [broadcastEmit, roomMembers, List.mem_filter]
    tauto
  · intro i
    simp [deliverTo, List.mem_filter, List.any_eq_true]

/-- C1 counterexample: on `/broadcast/order-deleted`, the body
`{order_id: 0}` carries the required field, yet the handler — whose guard
`if (!order_id)` tests JS truthiness — answers 400 and broadcasts nothing,
where the claim demands 200 and exactly one broadcast. -/
theorem claim_ingestion_success_cex :
    hasField [("order_id", JsVal.number 0)] "order_id" = true ∧
    (handleBroadcast .order_deleted initialState
        [("order_id", .number 0)]).1.status = 400 ∧
    (handleBroadcast .order_deleted initialState
        [("order_id", .number 0)]).2.1 = [] :=
  ⟨rfl, rfl, rfl⟩

/-- C1 (amended): for every endpoint and every body in which each required
field is present with a truthy value, the handler answers 200 with
`{success: true, message: "<event> event broadcasted", clients: <count>}`
and issues exactly one broadcast, addressed to the `order_updates` room,
whose event object is the `type` tag followed by exactly the endpoint's
fields with the values received; the state is unchanged, so sending the
same body twice issues two broadcasts in total. -/
theorem claim_ingestion_success (k : EventKind) (s : ServerState) (body : Body)
    (h : ∀ f ∈ requiredFields k, truthy (getField body f) = true) :
    handleBroadcast k s body
      = ({ status := 200,
           body := [("success", .boolean true),
                    ("message", .string (successMessage k)),
                    ("clients", .number s.connectedClients)] },
         [{ targets := roomMembers s "order_updates",
            event := kindName k,
            payload := ("type", .string (kindName k)) ::
              (requiredFields k).map (fun f => (f, getField body f)) }], s) ∧
    (handleBroadcast k ((handleBroadcast k s body).2.2) body).2.1.length
        + (handleBroadcast k s body).2.1.length = 2 := by
  have hany : (requiredFields k).any (fun g => !truthy (getField body g))
      = false := by
    simp only [List.any_eq_false]
    intro g hg
    simp [h g hg]
  constructor
  · simp [handleBroadcast, hany, broadcastEmit, eventPayload]
  · have hstate : (handleBroadcast k s body).2.2 = s := by
      unfold handleBroadcast
      split <;> rfl
    rw [hstate]
    simp [handleBroadcast, hany]

theorem claim_ingestion_success_witness :
    (∀ f ∈ requiredFields .order_created,
        truthy (getField [("order", JsVal.object [])] f) = true) ∧
    (handleBroadcast .order_created initialState [("order", .object [])]
        = ({ status := 200,
             body := [("success", .boolean true),
                      ("message", .string (successMessage .order_created)),
                      ("clients", .number initialState.connectedClients)] },
           [{ targets := roomMembers initialState "order_updates",
              event := kindName .order_created,
              payload := ("type", .string (kindName .order_created)) ::
                (requiredFields .order_created).map
                  (fun f => (f, getField [("order", JsVal.object [])] f)) }],
           initialState) ∧
      (handleBroadcast .order_created
            (handleBroadcast .order_created initialState
                [("order", .object [])]).2.2
            [("order", .object [])]).2.1.length
          + (handleBroadcast .order_created initialState
                [("order", .object [])]).2.1.length = 2) :=
  ⟨by decide,
   claim_ingestion_success .order_created initialState [("order", .object [])]
     (by decide)⟩

/-- C2 counterexample: validation is not presence-only.  For
`/broadcast/comment-deleted`, the bodies `{order_id: 7, comment_id: 3}`
and `{order_id: 7, comment_id: 0}` carry exactly the same required keys,
yet the first is accepted (200) and the second rejected (400): the guard
tests the fields' truthiness, so a body with every required field present
can still be turned away. -/
theorem claim_validation_presence_cex :
    hasField [("order_id", JsVal.number 7), ("comment_id", JsVal.number 3)]
        "comment_id" = true ∧
    hasField [("order_id", JsVal.number 7), ("comment_id", JsVal.number 0)]
        "comment_id" = true ∧
    (handleBroadcast .comment_deleted initialState
        [("order_id", .number 7), ("comment_id", .number 3)]).1.status = 200 ∧
    (handleBroadcast .comment_deleted initialState
        [("order_id", .number 7), ("comment_id", .number 0)]).1.status = 400 :=
  ⟨rfl, rfl, rfl, rfl⟩

/-- C2 (amended): for every endpoint, whenever some required field of the
body is absent — or present but with a falsy value, for the guard tests JS
truthiness rather than mere presence — the handler answers 400 with the
endpoint's descriptive `error` string, performs no broadcast, and leaves
the server state unchanged. -/
theorem claim_validation_rejects (k : EventKind) (s : ServerState)
    (body : Body) (f : String) (hf : f ∈ requiredFields k)
    (h : hasField body f = false ∨ truthy (getField body f) = false) :
    handleBroadcast k s body
      = ({ status := 400,
           body := [("error", .string (errorMessage k))] }, [], s) := by
  have hfalsy : truthy (getField body f) = false := by
    rcases h with h | h
    · cases hl : body.lookup f with
      | none => simp [getField, hl, truthy]
      | some v => simp [hasField, hl] at h
    · exact h
  have hany : (requiredFields k).any (fun g => !truthy (getField body g))
      = true :=
    List.any_eq_true.mpr ⟨f, hf, by simp [hfalsy]⟩
  simp [handleBroadcast, hany]

theorem claim_validation_rejects_witness :
    ("order_id" ∈ requiredFields .comment_deleted ∧
      (hasField ([] : Body) "order_id" = false ∨
        truthy (getField ([] : Body) "order_id") = false)) ∧
    handleBroadcast .comment_deleted initialState []
      = ({ status := 400,
           body := [("error", .string (errorMessage .comment_deleted))] }, [],
         initialState) :=
  ⟨⟨by decide, Or.inl rfl⟩,
   claim_validation_rejects .comment_deleted initialState [] "order_id"
     (by decide) (Or.inl rfl)⟩

end SeefoodRelay
